import Mathlib

/-!
Verification of the kotaemon HTTP facade (file upload, background indexing,
search, file listing, user creation) against its natural-language
specification.  The Python handlers in `fastapi_file_upload.py` and
`libs/ktem/ktem/pages/main.py` are shallowly embedded as pure Lean
functions: external collaborators (the storage gateway, the loader, the
relational session) become explicit oracles and list-valued tables, and the
handlers become state-passing functions returning a response together with
the observable side effects (temp-file existence, emitted log lines,
scheduled background tasks).
-/

namespace Kotaemon

/-! ## Python path helpers

`pathlib.PurePosixPath` semantics for the two operations the upload handler
uses: `.name` (the final path component) and `.suffix` (the extension).
Path components are obtained by splitting on the slash and dropping empty
components and single-dot components, exactly as `pathlib` builds `parts`. -/

/-- Split a character list at every occurrence of a separator character;
the separators are dropped and empty pieces are kept, as in Python
`str.split(sep)` with an explicit separator. -/
def splitCharAux (c : Char) : List Char → List Char → List (List Char)
  | [], acc => [acc.reverse]
  | a :: rest, acc =>
    if a = c then acc.reverse :: splitCharAux c rest []
    else splitCharAux c rest (a :: acc)

def pySplit (c : Char) (s : String) : List String :=
  (splitCharAux c s.toList []).map String.mk

def posixComponents (s : String) : List String :=
  (pySplit '/' s).filter (fun c => c != "" && c != ".")

/-- The final component of a posix path, or the empty string when there is
none; mirrors `PurePosixPath(s).name`. -/
def pathName (s : String) : String :=
  (posixComponents s).getLast?.getD ""

/-- Index of the last occurrence of a character in a list, if any. -/
def lastIdxOf (cs : List Char) (c : Char) : Option Nat :=
  match cs with
  | [] => none
  | a :: rest =>
    match lastIdxOf rest c with
    | some i => some (i + 1)
    | none => if a = c then some 0 else none

/-- Mirrors `PurePosixPath(name).suffix` applied to a bare file name: the
substring from the last dot on, provided the dot is neither the first nor
the last character; otherwise the empty string. -/
def pySuffix (name : String) : String :=
  let cs := name.toList
  match lastIdxOf cs '.' with
  | none => ""
  | some i => if 0 < i && i + 1 < cs.length then String.mk (cs.drop i) else ""

/-! ## Configuration

`INDEX_CONFIG` supplies a comma-separated extension allow-list and a size
cap in megabytes.  `allowedExts` mirrors the comprehension
`[e.strip().lower() for e in cfg["supported_file_types"].split(",") if e.strip()]`. -/

/-- Python `str.lower()`, embedded character by character. -/
def pyLower (s : String) : String :=
  String.mk (s.toList.map Char.toLower)

/-- Python `str.strip()`: drop leading and trailing whitespace. -/
def pyStrip (s : String) : String :=
  String.mk
    (((s.toList.dropWhile Char.isWhitespace).reverse.dropWhile
      Char.isWhitespace).reverse)

structure IndexConfig where
  supported_file_types : String
  max_file_size : Nat
deriving Repr, DecidableEq

def allowedExts (cfg : IndexConfig) : List String :=
  (((pySplit ',' cfg.supported_file_types).map pyStrip).filter
    (fun e => e != "")).map pyLower

/-! ## Upload orchestrator (`upload_file` in `fastapi_file_upload.py`)

The storage gateway (`index_pipeline.store_file` / `get_id_if_exists`) is
external to this repository, so it enters the embedding as an oracle: the
outcome of the store call and the result of the dedupe lookup.  The handler
itself is embedded faithfully, including the control flow of the Python
`try/except` blocks: an exception raised inside an `except` handler is not
caught by a sibling handler of the same `try`, so the 500 raised on a failed
dedupe lookup does not reach the cleanup code of the generic handler. -/

inductive StoreOutcome where
  | ok (file_id : String)
  | integrityViolation
  | otherFailure (msg : String)
deriving Repr, DecidableEq

structure StorageOracle where
  storeResult : StoreOutcome
  lookupResult : Option String
deriving Repr, DecidableEq

inductive UploadResponse where
  | accepted (file_id : String) (filename : String)
  | httpError (code : Nat) (detail : String)
deriving Repr, DecidableEq

/-- Observable outcome of one run of the upload handler: the response, the
side effects on the temp file, and the background tasks scheduled.
`tempWritten` records whether `temp_path.write_bytes` ran at all;
`tempFinal` records whether the temp file still exists when the handler
returns (false when `temp_path.unlink` ran afterwards). -/
structure UploadOutcome where
  response : UploadResponse
  tempWritten : Bool
  tempFinal : Bool
  tempName : String
  scheduled : List (String × String × String)
deriving Repr, DecidableEq

def upload_file (cfg : IndexConfig) (oracle : StorageOracle)
    (rawFilename : String) (size : Nat) (user_id : String) : UploadOutcome :=
  let allowed_exts := allowedExts cfg
  let max_bytes := cfg.max_file_size * 1000000
  let filename := pathName rawFilename
  let ext := pyLower (pySuffix filename)
  if !(allowed_exts.contains ext) then
    { response := .httpError 400 ("Unsupported file type: " ++ ext ++
        ". Allowed: " ++ String.intercalate ", " allowed_exts)
      tempWritten := false, tempFinal := false, tempName := filename
      scheduled := [] }
  else if max_bytes < size then
    { response := .httpError 400 ("File too large: " ++ toString size ++
        " bytes (max " ++ toString max_bytes ++ ")")
      tempWritten := false, tempFinal := false, tempName := filename
      scheduled := [] }
  else
    match oracle.storeResult with
    | .ok fid =>
      { response := .accepted fid filename
        tempWritten := true, tempFinal := true, tempName := filename
        scheduled := [(fid, filename, user_id)] }
    | .integrityViolation =>
      match oracle.lookupResult with
      | some fid =>
        { response := .accepted fid filename
          tempWritten := true, tempFinal := true, tempName := filename
          scheduled := [(fid, filename, user_id)] }
      | none =>
        { response := .httpError 500 "Duplicate record but could not find existing ID."
          tempWritten := true, tempFinal := true, tempName := filename
          scheduled := [] }
    | .otherFailure e =>
      { response := .httpError 500 ("Failed to store file: " ++ e)
        tempWritten := true, tempFinal := false, tempName := filename
        scheduled := [] }

/-! ## SourceRecord table and the file-listing handler (`list_files`)

A row of the per-index source table.  The `date_created` column carries a
datetime object whose only use in the handler is its `isoformat()` method,
so it is embedded as a wrapper around that rendered string. -/

structure PyDateTime where
  isoformat : String
deriving Repr, DecidableEq

structure SourceRecord where
  id : String
  name : String
  path : String
  size : Nat
  user : String
  date_created : PyDateTime
  note : String
deriving Repr, DecidableEq

/-- One element of the JSON array returned by `GET /files/`. -/
structure FileEntry where
  id : String
  name : String
  path : String
  size : Nat
  user : String
  created : String
  note : String
deriving Repr, DecidableEq

def serializeSource (src : SourceRecord) : FileEntry :=
  { id := src.id, name := src.name, path := src.path, size := src.size
    user := src.user, created := src.date_created.isoformat, note := src.note }

/-- `GET /files/`: `get_indexing_pipeline({}, user_id)` only resolves the
`Source` model class of the index, which is the same table for every user;
the query is `select(Source)` over all rows with no user filter, and each
row is serialized.  The `user_id` argument is consumed by pipeline
resolution only. -/
def list_files (table : List SourceRecord) (user_id : String) : List FileEntry :=
  table.map serializeSource

/-! ## Background indexer (`_background_index`)

The indexer looks up the source row by `file_id` in its own session, then
checks that the content-addressed file `FSPath/<src.path>` exists on disk.
Both abort branches return before any external call; the embedding records
which branch ran, the lines printed, and the table after the run (the two
abort branches touch no row).  The happy path hands over to external
loader/handler/finish code, represented by the `proceeded` outcome. -/

structure IndexerEnv where
  table : List SourceRecord
  diskFiles : List String
  fsPath : String
deriving Repr, DecidableEq

inductive IndexerResult where
  | abortedMissingRecord
  | abortedMissingFile
  | proceeded
deriving Repr, DecidableEq

structure IndexerOutcome where
  result : IndexerResult
  logs : List String
  table : List SourceRecord
deriving Repr, DecidableEq

def dbGetSource (table : List SourceRecord) (file_id : String) : Option SourceRecord :=
  table.find? (fun r => r.id == file_id)

def background_index (env : IndexerEnv) (file_id : String) (tmp_name : String)
    (user_id : String) : IndexerOutcome :=
  match dbGetSource env.table file_id with
  | none =>
    { result := .abortedMissingRecord, logs := [], table := env.table }
  | some src =>
    let real_pdf := env.fsPath ++ "/" ++ src.path
    if env.diskFiles.contains real_pdf then
      { result := .proceeded, logs := [], table := env.table }
    else
      { result := .abortedMissingFile
        logs := ["[index_failure] file_id=" ++ file_id ++
          " missing on disk: " ++ real_pdf]
        table := env.table }

/-! ## Query service (`search_files`)

`file_index.search` and `pipeline.search` are external; each enters as an
`Except` oracle.  The Python handler is one `try` with two `except`
clauses: `except AttributeError` runs the pipeline fallback, and
`except Exception` wraps other failures of the direct call in a 500.  An
exception raised inside the `except AttributeError` handler is not caught
by the sibling `except Exception` clause, so a fallback failure escapes the
handler unwrapped; the embedding keeps that case as a distinct outcome. -/

inductive PyError where
  | attributeFault
  | other (msg : String)
deriving Repr, DecidableEq

def pyErrorText : PyError → String
  | .attributeFault => "AttributeError"
  | .other m => m

structure SearchEnv where
  directResult : Except PyError (List String)
  pipelineResult : Except PyError (List String)
deriving Repr

inductive SearchOutcome where
  | ok (query : String) (top_k : Nat) (results : List String)
  | httpError (code : Nat) (detail : String)
  | uncaught (e : PyError)
deriving Repr, DecidableEq

def search_files (env : SearchEnv) (query : String) (top_k : Nat)
    (user_id : String) : SearchOutcome :=
  match env.directResult with
  | .ok rs => .ok query top_k rs
  | .error .attributeFault =>
    match env.pipelineResult with
    | .ok rs => .ok query top_k rs
    | .error e => .uncaught e
  | .error e => .httpError 500 ("Search failed: " ++ pyErrorText e)

/-! ## User creation (`create_user` in `libs/ktem/ktem/pages/main.py`)

The `User` table row and the request/response models.  The SHA-256 digest
is external library code, embedded as a hash-function parameter; the fresh
UUID primary key is likewise a parameter.  Python `str.lower()` is embedded
as `String.toLower`. -/

structure UserRow where
  id : String
  username : String
  username_lower : String
  password : String
  admin : Bool
deriving Repr, DecidableEq

structure UserCreate where
  username : String
  password : String
  admin : Bool
deriving Repr, DecidableEq

/-- The response model of `POST /users/`: `id`, `username` and `admin`
only; the row password never enters this structure. -/
structure UserRead where
  id : String
  username : String
  admin : Bool
deriving Repr, DecidableEq

/-- Result of `create_user`: a 201 with the `UserRead` body and the table
extended by the new row, or an HTTP error status with its detail text. -/
inductive UserResult where
  | created (body : UserRead) (table : List UserRow)
  | httpError (code : Nat) (detail : String)
deriving Repr, DecidableEq

def create_user (hash : String → String) (freshId : String)
    (table : List UserRow) (user_in : UserCreate) : UserResult :=
  let user_in_lower := pyLower user_in.username
  let hashed := hash user_in.password
  match table.find? (fun r => r.username_lower == user_in_lower) with
  | some _ =>
    .httpError 400 ("Username " ++ user_in.username ++ " already exists.")
  | none =>
    let row : UserRow :=
      { id := freshId, username := user_in.username
        username_lower := user_in_lower, password := hashed
        admin := user_in.admin }
    .created { id := freshId, username := user_in.username
               admin := user_in.admin } (table ++ [row])

/-- Invariant maintained by `create_user`, the only writer of the user
table: the `username_lower` column is the lowercasing of `username`. -/
def UserTableWF (table : List UserRow) : Prop :=
  ∀ r ∈ table, r.username_lower = pyLower r.username

/-! ## Observation helpers on responses -/

/-- HTTP status code of an upload response; the `accepted` JSON body is
served with the default 200 status. -/
def UploadResponse.statusCode : UploadResponse → Nat
  | .accepted _ _ => 200
  | .httpError c _ => c

/-- The `filename` field of the upload response body, when the response is
the `accepted` JSON body. -/
def UploadResponse.fileLabel : UploadResponse → Option String
  | .accepted _ fn => some fn
  | .httpError _ _ => none

/-- Whether a search outcome is the wrapped `500 Search failed` response. -/
def SearchOutcome.isSearchFailed : SearchOutcome → Bool
  | .httpError 500 _ => true
  | _ => false

/-- True when the string contains no slash, i.e. names a direct child of
whatever directory it is joined to. -/
def noSlash (s : String) : Bool :=
  s.toList.all (fun c => c != '/')

/-! ## Helper lemmas -/

lemma splitCharAux_not_mem (c : Char) (cs : List Char) :
    ∀ acc : List Char, c ∉ acc →
      ∀ piece ∈ splitCharAux c cs acc, c ∉ piece := by
  induction cs with
  | nil =>
    intro acc hacc piece hp
    simp only [splitCharAux, List.mem_singleton] at hp
    subst hp
    simpa using hacc
  | cons a rest ih =>
    intro acc hacc piece hp
    by_cases hac : a = c
    · rw [splitCharAux, if_pos hac] at hp
      rcases List.mem_cons.mp hp with hp | hp
      · subst hp; simpa using hacc
      · exact ih [] (List.not_mem_nil c) piece hp
    · rw [splitCharAux, if_neg hac] at hp
      refine ih (a :: acc) ?_ piece hp
      intro hmem
      rcases List.mem_cons.mp hmem with h | h
      · exact hac h.symm
      · exact hacc h

lemma mem_pySplit_noSlash (s p : String) (hp : p ∈ pySplit '/' s) :
    noSlash p = true := by
  rcases List.mem_map.mp hp with ⟨piece, hpiece, rfl⟩
  have hns := splitCharAux_not_mem '/' s.toList [] (List.not_mem_nil _) piece hpiece
  simp only [noSlash, List.all_eq_true]
  intro c hc
  simp only [bne_iff_ne, ne_eq]
  rintro rfl
  exact hns hc

lemma pathName_noSlash (s : String) : noSlash (pathName s) = true := by
  unfold pathName
  cases hlast : (posixComponents s).getLast? with
  | none => rfl
  | some p =>
    have hx : p ∈ (posixComponents s).getLast? := by rw [hlast]; rfl
    obtain ⟨hne, rfl⟩ := List.mem_getLast?_eq_getLast hx
    have hmem : (posixComponents s).getLast hne ∈ posixComponents s :=
      List.getLast_mem hne
    have hmem2 : (posixComponents s).getLast hne ∈ pySplit '/' s :=
      (List.mem_filter.mp hmem).1
    simpa using mem_pySplit_noSlash s _ hmem2

lemma pyLower_ne_empty {s : String} (h : s ≠ "") : pyLower s ≠ "" := by
  cases s with
  | mk data =>
    cases data with
    | nil => exact absurd rfl h
    | cons a l =>
      simp only [pyLower, String.toList, ne_eq]
      intro hcontra
      exact List.cons_ne_nil _ _ (congrArg String.data hcontra)

lemma mem_allowedExts_ne_empty {cfg : IndexConfig} {e : String}
    (h : e ∈ allowedExts cfg) : e ≠ "" := by
  rcases List.mem_map.mp h with ⟨e1, he1, rfl⟩
  have := (List.mem_filter.mp he1).2
  exact pyLower_ne_empty (by simpa using this)

lemma pySuffix_name_not_dots {n : String} (h : pySuffix n ≠ "") :
    n ≠ "" ∧ n ≠ "." ∧ n ≠ ".." := by
  refine ⟨?_, ?_, ?_⟩ <;> rintro rfl <;> exact h (by decide)

/-! ## Claim theorems -/

/-- Claim C1: an upload whose lowercased extension is not in the configured
allow-list, or whose content size exceeds the configured maximum, is
rejected with a 400 response and the temp file is never written: both
validations run before the write to the temp location. -/
theorem upload_invalid_rejected_before_write (cfg : IndexConfig)
    (oracle : StorageOracle) (raw : String) (size : Nat) (uid : String)
    (h : (allowedExts cfg).contains (pyLower (pySuffix (pathName raw))) = false ∨
      cfg.max_file_size * 1000000 < size) :
    (upload_file cfg oracle raw size uid).response.statusCode = 400 ∧
    (upload_file cfg oracle raw size uid).tempWritten = false := by
  by_cases hm : pyLower (pySuffix (pathName raw)) ∈ allowedExts cfg
  · rcases h with h | h
    · simp at h
      exact absurd hm h
    · simp [upload_file, hm, if_pos h, UploadResponse.statusCode]
  · simp [upload_file, hm, UploadResponse.statusCode]

theorem upload_invalid_rejected_before_write_witness :
    (upload_file ⟨".pdf,.txt", 1⟩ ⟨.ok "id0", none⟩ "evil.exe" 10 "api").response.statusCode = 400 ∧
    (upload_file ⟨".pdf,.txt", 1⟩ ⟨.ok "id0", none⟩ "evil.exe" 10 "api").tempWritten = false :=
  upload_invalid_rejected_before_write ⟨".pdf,.txt", 1⟩ ⟨.ok "id0", none⟩
    "evil.exe" 10 "api" (Or.inl (by decide))

/-- Claim C2: when the store call hits a uniqueness-constraint violation,
the handler consults the dedupe lookup: a found id is returned in the
`accepted` response body, and a missing id turns into the 500
`Duplicate record but could not find existing ID.` response, so a
conflicting insert never silently creates a duplicate. -/
theorem upload_dedupe_on_integrity_violation (cfg : IndexConfig)
    (oracle : StorageOracle) (raw : String) (size : Nat) (uid : String)
    (hext : (allowedExts cfg).contains (pyLower (pySuffix (pathName raw))) = true)
    (hsize : size ≤ cfg.max_file_size * 1000000)
    (hstore : oracle.storeResult = .integrityViolation) :
    (upload_file cfg oracle raw size uid).response =
      (match oracle.lookupResult with
       | some fid => .accepted fid (pathName raw)
       | none => .httpError 500 "Duplicate record but could not find existing ID.") := by
  have hm : pyLower (pySuffix (pathName raw)) ∈ allowedExts cfg := by
    simpa using hext
  cases hlook : oracle.lookupResult with
  | some fid => simp [upload_file, hm, if_neg (Nat.not_lt.mpr hsize), hstore, hlook]
  | none => simp [upload_file, hm, if_neg (Nat.not_lt.mpr hsize), hstore, hlook]

theorem upload_dedupe_on_integrity_violation_witness :
    (upload_file ⟨".pdf", 1⟩ ⟨.integrityViolation, some "orig-id"⟩ "a.pdf" 5 "api").response =
      (match (some "orig-id" : Option String) with
       | some fid => .accepted fid (pathName "a.pdf")
       | none => .httpError 500 "Duplicate record but could not find existing ID.") :=
  upload_dedupe_on_integrity_violation ⟨".pdf", 1⟩
    ⟨.integrityViolation, some "orig-id"⟩ "a.pdf" 5 "api"
    (by decide) (by decide) rfl

/-- Claim C5: the file-listing handler returns the same serialized rows for
any two values of the `user_id` argument over a fixed source table: the
query has no row-level user filter. -/
theorem listing_independent_of_user (table : List SourceRecord)
    (u1 u2 : String) : list_files table u1 = list_files table u2 := rfl

/-- Claim C6: when the store call fails with anything other than a
uniqueness-constraint violation, the handler deletes the temp file it had
written and responds 500 with the underlying cause embedded in the
detail text. -/
theorem upload_storage_failure_cleans_temp (cfg : IndexConfig)
    (oracle : StorageOracle) (raw : String) (size : Nat) (uid : String)
    (e : String)
    (hext : (allowedExts cfg).contains (pyLower (pySuffix (pathName raw))) = true)
    (hsize : size ≤ cfg.max_file_size * 1000000)
    (hstore : oracle.storeResult = .otherFailure e) :
    (upload_file cfg oracle raw size uid).response =
      .httpError 500 ("Failed to store file: " ++ e) ∧
    (upload_file cfg oracle raw size uid).tempWritten = true ∧
    (upload_file cfg oracle raw size uid).tempFinal = false := by
  have hm : pyLower (pySuffix (pathName raw)) ∈ allowedExts cfg := by
    simpa using hext
  refine ⟨?_, ?_, ?_⟩ <;>
    simp [upload_file, hm, if_neg (Nat.not_lt.mpr hsize), hstore]

theorem upload_storage_failure_cleans_temp_witness :
    (upload_file ⟨".pdf", 1⟩ ⟨.otherFailure "disk full", none⟩ "a.pdf" 5 "api").response =
      .httpError 500 ("Failed to store file: " ++ "disk full") ∧
    (upload_file ⟨".pdf", 1⟩ ⟨.otherFailure "disk full", none⟩ "a.pdf" 5 "api").tempWritten = true ∧
    (upload_file ⟨".pdf", 1⟩ ⟨.otherFailure "disk full", none⟩ "a.pdf" 5 "api").tempFinal = false :=
  upload_storage_failure_cleans_temp ⟨".pdf", 1⟩
    ⟨.otherFailure "disk full", none⟩ "a.pdf" 5 "api" "disk full"
    (by decide) (by decide) rfl

/-- Claim C10: on the failed-dedupe-lookup path (uniqueness violation and
no existing id found) the handler raises the 500 straight from the
`IntegrityError` branch, so the cleanup of the generic failure branch never
runs and the temp file written earlier is still on disk afterwards. -/
theorem upload_dedupe_lookup_failed_keeps_temp (cfg : IndexConfig)
    (oracle : StorageOracle) (raw : String) (size : Nat) (uid : String)
    (hext : (allowedExts cfg).contains (pyLower (pySuffix (pathName raw))) = true)
    (hsize : size ≤ cfg.max_file_size * 1000000)
    (hstore : oracle.storeResult = .integrityViolation)
    (hlook : oracle.lookupResult = none) :
    (upload_file cfg oracle raw size uid).response =
      .httpError 500 "Duplicate record but could not find existing ID." ∧
    (upload_file cfg oracle raw size uid).tempWritten = true ∧
    (upload_file cfg oracle raw size uid).tempFinal = true := by
  have hm : pyLower (pySuffix (pathName raw)) ∈ allowedExts cfg := by
    simpa using hext
  refine ⟨?_, ?_, ?_⟩ <;>
    simp [upload_file, hm, if_neg (Nat.not_lt.mpr hsize), hstore, hlook]

theorem upload_dedupe_lookup_failed_keeps_temp_witness :
    (upload_file ⟨".pdf", 1⟩ ⟨.integrityViolation, none⟩ "a.pdf" 5 "api").response =
      .httpError 500 "Duplicate record but could not find existing ID." ∧
    (upload_file ⟨".pdf", 1⟩ ⟨.integrityViolation, none⟩ "a.pdf" 5 "api").tempWritten = true ∧
    (upload_file ⟨".pdf", 1⟩ ⟨.integrityViolation, none⟩ "a.pdf" 5 "api").tempFinal = true :=
  upload_dedupe_lookup_failed_keeps_temp ⟨".pdf", 1⟩
    ⟨.integrityViolation, none⟩ "a.pdf" 5 "api"
    (by decide) (by decide) rfl rfl

/-- Claim C3 counterexample: with an empty source table the indexer run
aborts on the missing record, and its log output is empty — the
missing-record branch of `_background_index` is a bare `return` with no
print or logging call, so the abort is not logged. -/
theorem indexer_missing_record_unlogged_cex :
    (background_index ⟨[], [], "/store"⟩ "f1" "t.pdf" "api").result =
      .abortedMissingRecord ∧
    (background_index ⟨[], [], "/store"⟩ "f1" "t.pdf" "api").logs = [] := by
  exact ⟨rfl, rfl⟩

/-- Claim C3 (amended): when no SourceRecord exists for the given fileId,
the indexer aborts without raising and without touching the table, and it
emits no log or diagnostic message for this case. -/
theorem indexer_missing_record_aborts_silently (env : IndexerEnv)
    (fid tmp uid : String) (h : dbGetSource env.table fid = none) :
    (background_index env fid tmp uid).result = .abortedMissingRecord ∧
    (background_index env fid tmp uid).logs = [] ∧
    (background_index env fid tmp uid).table = env.table := by
  refine ⟨?_, ?_, ?_⟩ <;> simp [background_index, h]

theorem indexer_missing_record_aborts_silently_witness :
    (background_index ⟨[], ["/store/x"], "/store"⟩ "f9" "t.pdf" "api").result =
      .abortedMissingRecord ∧
    (background_index ⟨[], ["/store/x"], "/store"⟩ "f9" "t.pdf" "api").logs = [] ∧
    (background_index ⟨[], ["/store/x"], "/store"⟩ "f9" "t.pdf" "api").table = [] :=
  indexer_missing_record_aborts_silently ⟨[], ["/store/x"], "/store"⟩
    "f9" "t.pdf" "api" (by decide)

/-- Claim C4 counterexample: when the direct search capability is absent
(`AttributeError`) and the pipeline fallback then fails, the failure
escapes the handler unwrapped instead of becoming the 500 `Search failed`
response: the fallback runs inside the `except AttributeError` block, and
an exception raised there is not caught by the sibling `except Exception`
clause. -/
theorem search_fallback_failure_unwrapped_cex :
    search_files ⟨.error .attributeFault, .error (.other "boom")⟩ "q" 5 "api" =
      .uncaught (.other "boom") ∧
    (search_files ⟨.error .attributeFault, .error (.other "boom")⟩ "q" 5 "api").isSearchFailed
      = false := by
  exact ⟨rfl, rfl⟩

/-- Claim C4 (amended): the handler first attempts the direct search
capability and falls back to the query pipeline when that capability is
unavailable; a failure of the direct attempt other than the capability
probe surfaces as a 500 `Search failed` response carrying the underlying
cause, but a failure in the fallback path propagates uncaught rather than
being wrapped as the 500 response. -/
theorem search_capability_fallback (env : SearchEnv) (q : String) (k : Nat)
    (uid : String) (m : String) (e : PyError) (rs : List String) :
    (env.directResult = .ok rs → search_files env q k uid = .ok q k rs) ∧
    (env.directResult = .error (.other m) →
      search_files env q k uid = .httpError 500 ("Search failed: " ++ m)) ∧
    (env.directResult = .error .attributeFault → env.pipelineResult = .ok rs →
      search_files env q k uid = .ok q k rs) ∧
    (env.directResult = .error .attributeFault → env.pipelineResult = .error e →
      search_files env q k uid = .uncaught e ∧
      (search_files env q k uid).isSearchFailed = false) := by
  obtain ⟨d, p⟩ := env
  refine ⟨fun h => ?_, fun h => ?_, fun h h2 => ?_, fun h h2 => ?_⟩
  · cases h; rfl
  · cases h; rfl
  · cases h; cases h2; rfl
  · cases h; cases h2; exact ⟨rfl, rfl⟩

theorem search_capability_fallback_witness :
    search_files ⟨.error (.other "io fault"), .ok []⟩ "q" 3 "api" =
      .httpError 500 ("Search failed: " ++ "io fault") :=
  (search_capability_fallback ⟨.error (.other "io fault"), .ok []⟩ "q" 3 "api"
    "io fault" (.other "") []).2.1 rfl

/-- Claim C7: when the SourceRecord is present but the content-addressed
file is missing on disk, the indexer logs the warning line and returns on
that branch (before any external loader call, so nothing can escape),
leaving the table untouched; the record therefore still appears in the
output of the listing handler over that table. -/
theorem indexer_missing_disk_file_preserves_record (env : IndexerEnv)
    (fid tmp uid : String) (src : SourceRecord)
    (h1 : dbGetSource env.table fid = some src)
    (h2 : env.diskFiles.contains (env.fsPath ++ "/" ++ src.path) = false) :
    (background_index env fid tmp uid).result = .abortedMissingFile ∧
    (background_index env fid tmp uid).logs =
      ["[index_failure] file_id=" ++ fid ++ " missing on disk: " ++
        (env.fsPath ++ "/" ++ src.path)] ∧
    (background_index env fid tmp uid).table = env.table ∧
    serializeSource src ∈ list_files (background_index env fid tmp uid).table uid := by
  have hsrc : src ∈ env.table := List.mem_of_find?_eq_some h1
  have hout : background_index env fid tmp uid =
      { result := .abortedMissingFile
        logs := ["[index_failure] file_id=" ++ fid ++ " missing on disk: " ++
          (env.fsPath ++ "/" ++ src.path)]
        table := env.table } := by
    simp only [background_index, h1]
    rw [h2]
    rfl
  rw [hout]
  exact ⟨rfl, rfl, rfl, List.mem_map_of_mem serializeSource hsrc⟩

theorem indexer_missing_disk_file_preserves_record_witness :
    (background_index ⟨[⟨"f1", "a.pdf", "sha256abc", 5, "api", ⟨"2024-01-01T00:00:00"⟩, ""⟩], [], "/store"⟩
        "f1" "a.pdf" "api").result = .abortedMissingFile ∧
    (background_index ⟨[⟨"f1", "a.pdf", "sha256abc", 5, "api", ⟨"2024-01-01T00:00:00"⟩, ""⟩], [], "/store"⟩
        "f1" "a.pdf" "api").logs =
      ["[index_failure] file_id=" ++ "f1" ++ " missing on disk: " ++
        ("/store" ++ "/" ++ "sha256abc")] ∧
    (background_index ⟨[⟨"f1", "a.pdf", "sha256abc", 5, "api", ⟨"2024-01-01T00:00:00"⟩, ""⟩], [], "/store"⟩
        "f1" "a.pdf" "api").table =
      [⟨"f1", "a.pdf", "sha256abc", 5, "api", ⟨"2024-01-01T00:00:00"⟩, ""⟩] ∧
    serializeSource ⟨"f1", "a.pdf", "sha256abc", 5, "api", ⟨"2024-01-01T00:00:00"⟩, ""⟩ ∈
      list_files (background_index
        ⟨[⟨"f1", "a.pdf", "sha256abc", 5, "api", ⟨"2024-01-01T00:00:00"⟩, ""⟩], [], "/store"⟩
        "f1" "a.pdf" "api").table "api" :=
  indexer_missing_disk_file_preserves_record
    ⟨[⟨"f1", "a.pdf", "sha256abc", 5, "api", ⟨"2024-01-01T00:00:00"⟩, ""⟩], [], "/store"⟩
    "f1" "a.pdf" "api" ⟨"f1", "a.pdf", "sha256abc", 5, "api", ⟨"2024-01-01T00:00:00"⟩, ""⟩
    (by decide) (by decide)

lemma upload_file_tempName_eq (cfg : IndexConfig) (oracle : StorageOracle)
    (raw : String) (size : Nat) (uid : String) :
    (upload_file cfg oracle raw size uid).tempName = pathName raw := by
  simp only [upload_file]
  repeat' split
  all_goals rfl

lemma upload_file_fileLabel_default (cfg : IndexConfig) (oracle : StorageOracle)
    (raw : String) (size : Nat) (uid : String) :
    ((upload_file cfg oracle raw size uid).response.fileLabel).getD (pathName raw) =
      pathName raw := by
  simp only [upload_file]
  repeat' split
  all_goals rfl

lemma upload_file_tempWritten_mem (cfg : IndexConfig) (oracle : StorageOracle)
    (raw : String) (size : Nat) (uid : String)
    (hw : (upload_file cfg oracle raw size uid).tempWritten = true) :
    pyLower (pySuffix (pathName raw)) ∈ allowedExts cfg := by
  by_contra hm
  simp [upload_file, hm] at hw

/-- Claim C8: whenever the upload handler writes the temp file, the name it
uses (also echoed in the `accepted` response body) is the basename of the
client-supplied filename: it contains no slash and is none of the special
components, so joining it to the temp directory cannot leave that
directory. -/
theorem upload_writes_only_sanitized_basename (cfg : IndexConfig)
    (oracle : StorageOracle) (raw : String) (size : Nat) (uid : String)
    (hw : (upload_file cfg oracle raw size uid).tempWritten = true) :
    (upload_file cfg oracle raw size uid).tempName = pathName raw ∧
    noSlash ((upload_file cfg oracle raw size uid).tempName) = true ∧
    (upload_file cfg oracle raw size uid).tempName ≠ "" ∧
    (upload_file cfg oracle raw size uid).tempName ≠ "." ∧
    (upload_file cfg oracle raw size uid).tempName ≠ ".." ∧
    ((upload_file cfg oracle raw size uid).response.fileLabel).getD (pathName raw) =
      pathName raw := by
  have ht := upload_file_tempName_eq cfg oracle raw size uid
  have hmem := upload_file_tempWritten_mem cfg oracle raw size uid hw
  have hne : pyLower (pySuffix (pathName raw)) ≠ "" := mem_allowedExts_ne_empty hmem
  have hsuf : pySuffix (pathName raw) ≠ "" := by
    intro h0
    exact hne (by rw [h0]; rfl)
  obtain ⟨h1, h2, h3⟩ := pySuffix_name_not_dots hsuf
  rw [ht]
  exact ⟨rfl, pathName_noSlash raw, h1, h2, h3,
    upload_file_fileLabel_default cfg oracle raw size uid⟩

theorem upload_writes_only_sanitized_basename_witness :
    (upload_file ⟨".pdf", 1⟩ ⟨.ok "id0", none⟩ "dir/../a.pdf" 5 "api").tempName =
      pathName "dir/../a.pdf" ∧
    noSlash ((upload_file ⟨".pdf", 1⟩ ⟨.ok "id0", none⟩ "dir/../a.pdf" 5 "api").tempName)
      = true ∧
    (upload_file ⟨".pdf", 1⟩ ⟨.ok "id0", none⟩ "dir/../a.pdf" 5 "api").tempName ≠ "" ∧
    (upload_file ⟨".pdf", 1⟩ ⟨.ok "id0", none⟩ "dir/../a.pdf" 5 "api").tempName ≠ "." ∧
    (upload_file ⟨".pdf", 1⟩ ⟨.ok "id0", none⟩ "dir/../a.pdf" 5 "api").tempName ≠ ".." ∧
    ((upload_file ⟨".pdf", 1⟩ ⟨.ok "id0", none⟩ "dir/../a.pdf" 5 "api").response.fileLabel).getD
      (pathName "dir/../a.pdf") = pathName "dir/../a.pdf" :=
  upload_writes_only_sanitized_basename ⟨".pdf", 1⟩ ⟨.ok "id0", none⟩
    "dir/../a.pdf" 5 "api" (by decide)

lemma find_lower_isSome_eq_any (low : String) :
    ∀ table : List UserRow, UserTableWF table →
      (table.find? (fun r => r.username_lower == low)).isSome =
        table.any (fun r => pyLower r.username == low) := by
  intro table
  induction table with
  | nil => intro _; rfl
  | cons a t ih =>
    intro hwf
    have ha : a.username_lower = pyLower a.username := hwf a (List.mem_cons_self a t)
    have hwt : UserTableWF t := fun r hr => hwf r (List.mem_cons_of_mem a hr)
    cases hb : pyLower a.username == low with
    | true => simp [List.find?_cons, List.any_cons, ha, hb]
    | false => simp [List.find?_cons, List.any_cons, ha, hb, ih hwt]

/-- Claim C9: over a well-formed user table (the `username_lower` column is
the lowercasing of `username`, the invariant `create_user` itself
maintains), user creation returns the 400 duplicate error exactly when some
existing row matches the requested username case-insensitively, and
otherwise returns the 201 `created` result whose body carries the fresh id,
the username in its original case and the admin flag — the response model
has no password field — while the stored row keeps the hashed password. -/
theorem create_user_duplicate_iff_case_clash (hash : String → String)
    (freshId : String) (table : List UserRow) (u : UserCreate)
    (hwf : UserTableWF table) :
    create_user hash freshId table u =
      (if table.any (fun r => pyLower r.username == pyLower u.username) then
        .httpError 400 ("Username " ++ u.username ++ " already exists.")
      else
        .created { id := freshId, username := u.username, admin := u.admin }
          (table ++
            [{ id := freshId, username := u.username,
               username_lower := pyLower u.username,
               password := hash u.password, admin := u.admin }])) := by
  have key := find_lower_isSome_eq_any (pyLower u.username) table hwf
  simp only [create_user]
  cases hfind : table.find? (fun r => r.username_lower == pyLower u.username) with
  | some r =>
    have hany : table.any (fun r => pyLower r.username == pyLower u.username) = true := by
      rw [hfind] at key
      simpa using key.symm
    simp [hany]
  | none =>
    have hany : table.any (fun r => pyLower r.username == pyLower u.username) = false := by
      rw [hfind] at key
      simpa using key.symm
    simp [hany]

theorem create_user_duplicate_iff_case_clash_witness :
    create_user (fun s => s) "id2"
      [{ id := "id1", username := "Alice", username_lower := pyLower "Alice",
         password := "h", admin := false }]
      { username := "ALICE", password := "pw", admin := false } =
      (if [({ id := "id1", username := "Alice", username_lower := pyLower "Alice",
              password := "h", admin := false } : UserRow)].any
          (fun r => pyLower r.username == pyLower "ALICE") then
        .httpError 400 ("Username " ++ "ALICE" ++ " already exists.")
      else
        .created { id := "id2", username := "ALICE", admin := false }
          ([{ id := "id1", username := "Alice", username_lower := pyLower "Alice",
              password := "h", admin := false }] ++
            [{ id := "id2", username := "ALICE",
               username_lower := pyLower "ALICE",
               password := (fun s : String => s) "pw", admin := false }])) :=
  create_user_duplicate_iff_case_clash (fun s => s) "id2"
    [{ id := "id1", username := "Alice", username_lower := pyLower "Alice",
       password := "h", admin := false }]
    { username := "ALICE", password := "pw", admin := false }
    (by intro r hr; simp only [List.mem_singleton] at hr; rw [hr])

end Kotaemon
